import Mathlib

/-!
Shallow embedding of the stock-research skill analyzer
(tools/stock_analyzer.py) over exact rational arithmetic.

Conventions used throughout:
- Python/pandas floats are modelled as rationals.
- A pandas NaN is modelled as `none` of an `Option` type; every IEEE
  comparison with NaN is false, which is reflected in the Option-valued
  comparison helpers below.
- A missing dictionary key is likewise `none`; the two are kept apart by
  the places in which the Option appears (a missing mapping is an outer
  Option, a NaN cell is an inner one).
- The float function np.sqrt is modelled by Rat.sqrt; the theorems below
  only rely on sqrt 0 = 0 and never on the value of sqrt at other points.
- round(x, k) (banker's rounding, ties to even) is modelled by pyRound.
-/

namespace StockResearch

/-- Round a rational to the nearest integer, ties to even (Python round). -/
def rhe (x : ℚ) : ℤ :=
  if x - ⌊x⌋ < 1/2 then ⌊x⌋
  else if 1/2 < x - ⌊x⌋ then ⌊x⌋ + 1
  else if ⌊x⌋ % 2 = 0 then ⌊x⌋ else ⌊x⌋ + 1

/-- Python round(x, k): scale by 10^k, round half to even, scale back. -/
def pyRound (k : ℕ) (x : ℚ) : ℚ :=
  ((rhe (x * 10 ^ k) : ℤ) : ℚ) / 10 ^ k

/-- Arithmetic mean of a list, as pandas Series.mean on a nonempty series. -/
def mean (xs : List ℚ) : ℚ := xs.sum / (xs.length : ℚ)

/-- Series.iloc[-1] with a default; the call sites guard on a nonempty
series, mirroring the len > 0 guards of the source. -/
def lastD : List ℚ → ℚ → ℚ
  | [], d => d
  | [x], _ => x
  | _ :: b :: rest, d => lastD (b :: rest) d

/-- Unbiased sample variance (pandas default ddof = 1); only consumed
behind guards that ensure at least two samples. -/
def sampleVar (xs : List ℚ) : ℚ :=
  ((xs.map (fun x => (x - mean xs) ^ 2)).sum) / ((xs.length : ℚ) - 1)

/-- Sample standard deviation as a rational (np/pandas std, ddof = 1). -/
def stdQ (xs : List ℚ) : ℚ := Rat.sqrt (sampleVar xs)

/-- pandas Series.std: NaN (none) when fewer than two samples. -/
def stdNaN (xs : List ℚ) : Option ℚ :=
  if 2 ≤ xs.length then some (stdQ xs) else none

/-- close.pct_change().dropna(): successive ratios minus one. -/
def dailyReturns : List ℚ → List ℚ
  | a :: b :: rest => (b / a - 1) :: dailyReturns (b :: rest)
  | _ => []

/-- Helper for (1 + r).cumprod(). -/
def cumprodAux (acc : ℚ) : List ℚ → List ℚ
  | [] => []
  | r :: rs => (acc * (1 + r)) :: cumprodAux (acc * (1 + r)) rs

/-- (1 + daily_returns).cumprod(). -/
def cumprod (rs : List ℚ) : List ℚ := cumprodAux 1 rs

/-- Helper for Series.expanding().max(). -/
def runningMaxAux (m : ℚ) : List ℚ → List ℚ
  | [] => []
  | x :: xs => (max m x) :: runningMaxAux (max m x) xs

/-- Series.expanding().max(). -/
def runningMax : List ℚ → List ℚ
  | [] => []
  | x :: xs => x :: runningMaxAux x xs

/-- Series.min(): none (NaN) on an empty series. -/
def minList : List ℚ → Option ℚ
  | [] => none
  | x :: xs => some (xs.foldl min x)

/-- The returns_analysis dictionary built by calculate_returns; fields
that the source can leave as NaN are Options. -/
structure ReturnMetrics where
  cumulative_return_pct : ℚ
  annual_volatility_pct : ℚ
  sharpe_ratio : ℚ
  max_drawdown_pct : Option ℚ
  avg_daily_return_pct : Option ℚ
  positive_days_pct : Option ℚ
  deriving Repr, DecidableEq

/-- annual_volatility of lines 123-127 before rounding: the std branch
requires more than one daily return, else the literal 0. -/
def volOf (dr : List ℚ) : ℚ :=
  if 1 < dr.length then stdQ dr * Rat.sqrt 252 * 100 else 0

/-- sharpe_ratio of lines 129-133 before rounding: std is NaN on fewer
than two returns and any comparison with NaN is false, so the 0 branch
is also taken then. -/
def sharpeOf (dr : List ℚ) : ℚ :=
  match stdNaN dr with
  | some s => if 0 < s then mean dr / s * Rat.sqrt 252 else 0
  | none => 0

/-- drawdown series of lines 135-138. -/
def drawdowns (dr : List ℚ) : List ℚ :=
  List.zipWith (fun cv mv => (cv - mv) / mv) (cumprod dr) (runningMax (cumprod dr))

/-- max_drawdown_pct of line 139 with the line 145 rounding: the min of
an empty series is NaN. -/
def maxDrawdownOf (dr : List ℚ) : Option ℚ :=
  (minList (drawdowns dr)).map (fun m => pyRound 2 (m * 100))

/-- avg_daily_return_pct of line 146: mean of an empty series is NaN. -/
def avgDailyOf (dr : List ℚ) : Option ℚ :=
  if dr.isEmpty then none else some (pyRound 3 (mean dr * 100))

/-- positive_days_pct of line 147: on an empty series the 0/0 division
is NaN (a suppressed numpy warning, not an exception). -/
def posDaysOf (dr : List ℚ) : Option ℚ :=
  if dr.isEmpty then none
  else some (pyRound 1
    (((dr.countP (fun x => decide (0 < x)) : ℕ) : ℚ) / (dr.length : ℚ) * 100))

/-- StockAnalyzer.calculate_returns, lines 105-148: none is the empty
dictionary returned when the price data is empty. iloc[0] is the head of
the match, iloc[-1] is lastD (the list is nonempty in this branch). -/
def calculateReturns (closes : List ℚ) : Option ReturnMetrics :=
  match closes with
  | [] => none
  | c0 :: rest =>
    some {
      cumulative_return_pct :=
        pyRound 2 ((lastD (c0 :: rest) 0 / c0 - 1) * 100)
      annual_volatility_pct := pyRound 2 (volOf (dailyReturns (c0 :: rest)))
      sharpe_ratio := pyRound 2 (sharpeOf (dailyReturns (c0 :: rest)))
      max_drawdown_pct := maxDrawdownOf (dailyReturns (c0 :: rest))
      avg_daily_return_pct := avgDailyOf (dailyReturns (c0 :: rest))
      positive_days_pct := posDaysOf (dailyReturns (c0 :: rest)) }

/-- close.diff() with the leading NaN dropped: consecutive differences. -/
def deltas : List ℚ → List ℚ
  | a :: b :: rest => (b - a) :: deltas (b :: rest)
  | _ => []

/-- close.diff() itself: the leading NaN is written as 0 because both
delta.where(delta > 0, 0) and delta.where(delta < 0, 0) replace it by 0
(any comparison with NaN is false), and only those two images of the
series are ever consumed. -/
def paddedDeltas (closes : List ℚ) : List ℚ := 0 :: deltas closes

/-- The last n elements of a list (a full rolling window at the last bar). -/
def lastN (n : ℕ) (l : List α) : List α := l.drop (l.length - n)

/-- delta.where(delta > 0, 0): gains series. -/
def gains (closes : List ℚ) : List ℚ :=
  (paddedDeltas closes).map (fun d => max d 0)

/-- (-delta.where(delta < 0, 0)): losses series, nonnegative. -/
def losses (closes : List ℚ) : List ℚ :=
  (paddedDeltas closes).map (fun d => max (-d) 0)

/-- gain.rolling(14).mean() at the last bar: NaN unless 14 bars exist. -/
def avgGain (closes : List ℚ) : Option ℚ :=
  if 14 ≤ closes.length then some (mean (lastN 14 (gains closes))) else none

/-- loss.rolling(14).mean() at the last bar. -/
def avgLoss (closes : List ℚ) : Option ℚ :=
  if 14 ≤ closes.length then some (mean (lastN 14 (losses closes))) else none

/-- rs = gain/loss; rsi = 100 - 100/(1 + rs), under IEEE semantics for
nonnegative gain g and loss l: l = 0 and g = 0 gives 0/0 = NaN, hence
rsi = NaN; l = 0 and g > 0 gives rs = inf, hence rsi = 100 - 0 = 100;
otherwise everything is finite. -/
def rsiFromAvgs (g l : ℚ) : Option ℚ :=
  if l = 0 then (if g = 0 then none else some 100)
  else some (100 - 100 / (1 + g / l))

/-- rsi.iloc[-1] before the NaN guard. -/
def currentRsi (closes : List ℚ) : Option ℚ :=
  match avgGain closes, avgLoss closes with
  | some g, some l => rsiFromAvgs g l
  | _, _ => none

/-- The rsi entry of the technicals dictionary:
round(current_rsi, 1) if not isna(current_rsi) else 50. -/
def reportedRsi (closes : List ℚ) : ℚ :=
  match currentRsi closes with
  | none => 50
  | some r => pyRound 1 r

/-- close.rolling(w).mean() at the last bar: NaN unless w bars exist. -/
def lastSMA (w : ℕ) (closes : List ℚ) : Option ℚ :=
  if w ≤ closes.length then some (mean (lastN w closes)) else none

/-- IEEE greater-than on possibly-NaN values: false if either is NaN. -/
def gtO : Option ℚ → Option ℚ → Bool
  | some a, some b => decide (b < a)
  | _, _ => false

/-- IEEE less-than on possibly-NaN values: false if either is NaN. -/
def ltO : Option ℚ → Option ℚ → Bool
  | some a, some b => decide (a < b)
  | _, _ => false

/-- bb_middle + bb_std * 2 at the last bar (Bollinger upper band). -/
def lastBBupper (closes : List ℚ) : Option ℚ :=
  if 20 ≤ closes.length then
    some (mean (lastN 20 closes) + stdQ (lastN 20 closes) * 2)
  else none

/-- bb_middle - bb_std * 2 at the last bar (Bollinger lower band). -/
def lastBBlower (closes : List ℚ) : Option ℚ :=
  if 20 ≤ closes.length then
    some (mean (lastN 20 closes) - stdQ (lastN 20 closes) * 2)
  else none

/-- ma_signal at the last bar, line 190: the strict chained comparison
close > ma20 > ma50 > ma200; a NaN anywhere makes a comparison false,
hence Bearish. -/
def maSignal (closes : List ℚ) : String :=
  if gtO (some (lastD closes 0)) (lastSMA 20 closes)
      && gtO (lastSMA 20 closes) (lastSMA 50 closes)
      && gtO (lastSMA 50 closes) (lastSMA 200 closes)
  then "Bullish" else "Bearish"

/-- The technical_analysis dictionary of calculate_technical_indicators. -/
structure Technicals where
  current_price : ℚ
  ma_20 : ℚ
  ma_50 : ℚ
  ma_200 : ℚ
  rsi : ℚ
  bb_upper : ℚ
  bb_lower : ℚ
  ma_signal : String
  rsi_signal : String
  bb_position : String
  deriving Repr, DecidableEq

/-- Body of calculate_technical_indicators for a nonempty series;
current_close = close.iloc[-1] (the len > 0 guard makes getLastD exact).
The NaN-to-0 output convention of lines 196-201 is the match on each
Option; ma_signal is the strict chained comparison of line 190, false as
soon as one moving average is NaN. -/
def mkTechnicals (closes : List ℚ) : Technicals :=
  let cc := lastD closes 0
  let m20 := lastSMA 20 closes
  let m50 := lastSMA 50 closes
  let m200 := lastSMA 200 closes
  let bbU := lastBBupper closes
  let bbL := lastBBlower closes
  { current_price := pyRound 2 cc
    ma_20 := match m20 with | some v => pyRound 2 v | none => 0
    ma_50 := match m50 with | some v => pyRound 2 v | none => 0
    ma_200 := match m200 with | some v => pyRound 2 v | none => 0
    rsi := reportedRsi closes
    bb_upper := match bbU with | some v => pyRound 2 v | none => 0
    bb_lower := match bbL with | some v => pyRound 2 v | none => 0
    ma_signal := maSignal closes
    rsi_signal :=
      match currentRsi closes with
      | some r => if 70 < r then "Overbought"
                  else if r < 30 then "Oversold" else "Neutral"
      | none => "Neutral"
    bb_position :=
      if gtO (some cc) bbU then "Upper Band"
      else if ltO (some cc) bbL then "Lower Band"
      else "Middle Range" }

/-- StockAnalyzer.calculate_technical_indicators, lines 150-205: none is
the empty dictionary returned when the price data is empty. -/
def calculateTechnicals : List ℚ → Option Technicals
  | [] => none
  | c0 :: rest => some (mkTechnicals (c0 :: rest))

/-- The four fundamentals-dictionary entries the scorer reads; each is
present or absent independently (the extractor skips absent keys).
Values are the extractor output (rounded to 3 decimals upstream, which
the scorer does not care about). -/
structure Fundamentals where
  pe_ratio : Option ℚ
  profit_margin : Option ℚ
  revenue_growth : Option ℚ
  debt_equity : Option ℚ
  deriving Repr, DecidableEq

/-- An empty fundamentals snapshot: no metric present. -/
def emptyFundamentals : Fundamentals :=
  { pe_ratio := none, profit_margin := none
    revenue_growth := none, debt_equity := none }

/-- MA-signal rubric, lines 275-280: the argument is
technicals.get(ma_signal), which is None when the technicals dictionary
is empty. -/
def maPoints (sig : Option String) : ℤ :=
  if sig = some "Bullish" then 15
  else if sig = some "Bearish" then 5
  else 10

/-- RSI rubric, lines 283-289. -/
def rsiPoints (rsi : ℚ) : ℤ :=
  if 30 ≤ rsi ∧ rsi ≤ 70 then 10
  else if rsi < 30 then 8
  else 4

/-- Bollinger-position rubric, lines 292-298. -/
def bbPoints (pos : Option String) : ℤ :=
  if pos = some "Lower Band" then 10
  else if pos = some "Middle Range" then 7
  else 4

/-- Trend-strength rubric, lines 301-309. -/
def trendPoints (cr : ℚ) : ℤ :=
  if 10 < cr then 15
  else if 0 < cr then 10
  else if -10 < cr then 5
  else 0

/-- Valuation rubric, lines 313-324: if pe_ratio tests Python truthiness,
so a missing key (None) and a present value of exactly 0 both fall to the
no-data branch worth 7. -/
def valuationPoints (pe : Option ℚ) : ℤ :=
  match pe with
  | some p =>
    if p = 0 then 7
    else if p < 15 then 15
    else if p < 25 then 10
    else if p < 40 then 5
    else 0
  | none => 7

/-- Profitability rubric, lines 327-335 (missing key defaults to 0). -/
def profitPoints (pm : Option ℚ) : ℤ :=
  if 1/5 < pm.getD 0 then 10
  else if 1/10 < pm.getD 0 then 7
  else if 0 < pm.getD 0 then 4
  else 0

/-- Growth rubric, lines 338-346 (missing key defaults to 0). -/
def growthPoints (rg : Option ℚ) : ℤ :=
  if 1/5 < rg.getD 0 then 10
  else if 1/10 < rg.getD 0 then 7
  else if 0 < rg.getD 0 then 4
  else 0

/-- Financial-health rubric, lines 349-357 (missing key defaults to 1). -/
def healthPoints (de : Option ℚ) : ℤ :=
  if de.getD 1 < 1/2 then 15
  else if de.getD 1 < 1 then 10
  else if de.getD 1 < 2 then 5
  else 0

/-- fundamental_score, lines 311-357. -/
def fundamentalScoreOf (f : Fundamentals) : ℤ :=
  valuationPoints f.pe_ratio + profitPoints f.profit_margin
    + growthPoints f.revenue_growth + healthPoints f.debt_equity

/-- technicals.get(rsi, 50): the default applies when the technicals
dictionary is empty. -/
def rsiInput (t : Option Technicals) : ℚ :=
  match t with | some tt => tt.rsi | none => 50

/-- returns.get(cumulative_return_pct, 0). -/
def crInput (r : Option ReturnMetrics) : ℚ :=
  match r with | some m => m.cumulative_return_pct | none => 0

/-- returns.get(annual_volatility_pct, 0). -/
def volInput (r : Option ReturnMetrics) : ℚ :=
  match r with | some m => m.annual_volatility_pct | none => 0

/-- technical_score, lines 273-309; the returns and technicals
dictionaries may each be absent wholesale (empty price data), in which
case every .get falls back to its default. -/
def technicalScoreOf (t : Option Technicals) (r : Option ReturnMetrics) : ℤ :=
  maPoints (t.map Technicals.ma_signal)
    + rsiPoints (rsiInput t)
    + bbPoints (t.map Technicals.bb_position)
    + trendPoints (crInput r)

/-- Volatility sub-penalty, lines 360-371. -/
def volPenaltyOf (r : Option ReturnMetrics) : ℤ :=
  if volInput r < 20 then 0
  else if volInput r < 30 then -10
  else if volInput r < 40 then -15
  else -25

/-- Drawdown sub-penalty, lines 373-381: when max_drawdown_pct is NaN,
abs of it is NaN, every comparison is false, and the final else applies. -/
def ddPenaltyOf (r : Option ReturnMetrics) : ℤ :=
  match r with
  | none => 0
  | some m =>
    match m.max_drawdown_pct with
    | none => -25
    | some d =>
      if |d| < 10 then 0
      else if |d| < 20 then -10
      else if |d| < 30 then -15
      else -25

/-- risk_score, lines 359-381. -/
def riskScoreOf (r : Option ReturnMetrics) : ℤ := volPenaltyOf r + ddPenaltyOf r

/-- total_score, line 384. -/
def totalScoreOf (r : Option ReturnMetrics) (t : Option Technicals)
    (f : Fundamentals) : ℤ :=
  technicalScoreOf t r + fundamentalScoreOf f + riskScoreOf r

/-- Recommendation bands, lines 388-407, evaluated top-down. -/
def recAction (s : ℤ) : String × String :=
  if 70 ≤ s then ("BUY", "STRONG")
  else if 50 ≤ s then ("BUY", "MODERATE")
  else if 30 ≤ s then ("HOLD", "NEUTRAL")
  else if 10 ≤ s then ("HOLD", "CAUTIOUS")
  else ("SELL", "MODERATE")

/-- technicals.get(current_price, 0). -/
def currentPriceOf (t : Option Technicals) : ℚ :=
  match t with | some tt => tt.current_price | none => 0

/-- Price target and stop loss, lines 409-424; (0, 0) when no price. -/
def priceTargets (action : String) (cp : ℚ) : ℚ × ℚ :=
  if 0 < cp then
    if action = "BUY" then (pyRound 2 (cp * (11/10)), pyRound 2 (cp * (9/10)))
    else if action = "SELL" then (pyRound 2 (cp * (9/10)), pyRound 2 (cp * (11/10)))
    else (pyRound 2 cp, pyRound 2 (cp * (19/20)))
  else (0, 0)

/-- The fields of the trading_recommendation dictionary that carry
computed content (the remaining ones are fixed strings). -/
structure Recommendation where
  recommendation : String
  conviction : String
  total_score : ℤ
  technical_score : ℤ
  fundamental_score : ℤ
  risk_score : ℤ
  price_target : ℚ
  stop_loss : ℚ
  deriving Repr, DecidableEq

/-- StockAnalyzer.generate_recommendation, lines 255-438, as a function
of the fetched close series and the fundamentals snapshot. -/
def generateRecommendation (closes : List ℚ) (f : Fundamentals) : Recommendation :=
  let r := calculateReturns closes
  let t := calculateTechnicals closes
  let total := totalScoreOf r t f
  let ac := recAction total
  let pt := priceTargets ac.1 (currentPriceOf t)
  { recommendation := ac.1
    conviction := ac.2
    total_score := total
    technical_score := technicalScoreOf t r
    fundamental_score := fundamentalScoreOf f
    risk_score := riskScoreOf r
    price_target := pt.1
    stop_loss := pt.2 }

/-! Helper lemmas about the rounding function. -/

lemma rhe_ge_floor (x : ℚ) : ⌊x⌋ ≤ rhe x := by
  unfold rhe; split_ifs <;> omega

lemma rhe_le_floor_succ (x : ℚ) : rhe x ≤ ⌊x⌋ + 1 := by
  unfold rhe; split_ifs <;> omega

lemma le_rhe_of_le (A : ℤ) (x : ℚ) (h : (A : ℚ) ≤ x) : A ≤ rhe x :=
  le_trans (Int.le_floor.mpr h) (rhe_ge_floor x)

lemma rhe_le_of_le (B : ℤ) (x : ℚ) (h : x ≤ (B : ℚ)) : rhe x ≤ B := by
  have hfB : ⌊x⌋ ≤ B := by
    have := Int.floor_le_floor h
    simpa using this
  rcases lt_or_eq_of_le hfB with hlt | heq
  · have := rhe_le_floor_succ x
    omega
  · have hxB : (B : ℚ) ≤ x := heq ▸ Int.floor_le x
    have hxeq : x = (B : ℚ) := le_antisymm h hxB
    subst hxeq
    unfold rhe
    rw [if_pos]
    · exact heq.le
    · rw [Int.floor_intCast]
      norm_num

lemma le_pyRound (k : ℕ) (A : ℤ) (x : ℚ) (h : (A : ℚ) ≤ x) :
    (A : ℚ) ≤ pyRound k x := by
  unfold pyRound
  rw [le_div_iff (by positivity : (0:ℚ) < 10 ^ k)]
  have h1 : ((A * 10 ^ k : ℤ) : ℚ) ≤ x * 10 ^ k := by
    push_cast
    exact mul_le_mul_of_nonneg_right h (by positivity)
  have h2 := le_rhe_of_le (A * 10 ^ k) _ h1
  calc (A : ℚ) * 10 ^ k = ((A * 10 ^ k : ℤ) : ℚ) := by push_cast; ring
    _ ≤ ((rhe (x * 10 ^ k) : ℤ) : ℚ) := by exact_mod_cast h2

lemma pyRound_le (k : ℕ) (B : ℤ) (x : ℚ) (h : x ≤ (B : ℚ)) :
    pyRound k x ≤ (B : ℚ) := by
  unfold pyRound
  rw [div_le_iff (by positivity : (0:ℚ) < 10 ^ k)]
  have h1 : x * 10 ^ k ≤ ((B * 10 ^ k : ℤ) : ℚ) := by
    push_cast
    exact mul_le_mul_of_nonneg_right h (by positivity)
  have h2 := rhe_le_of_le (B * 10 ^ k) _ h1
  calc ((rhe (x * 10 ^ k) : ℤ) : ℚ) ≤ ((B * 10 ^ k : ℤ) : ℚ) := by exact_mod_cast h2
    _ = (B : ℚ) * 10 ^ k := by push_cast; ring

lemma pyRound_zero (k : ℕ) : pyRound k 0 = 0 := by
  unfold pyRound rhe
  norm_num

lemma rhe_intCast (n : ℤ) : rhe ((n : ℤ) : ℚ) = n := by
  unfold rhe
  rw [Int.floor_intCast, sub_self]
  norm_num

lemma pyRound_intCast (k : ℕ) (n : ℤ) : pyRound k ((n : ℤ) : ℚ) = (n : ℚ) := by
  unfold pyRound
  have h : ((n : ℤ) : ℚ) * 10 ^ k = (((n * 10 ^ k : ℤ) : ℤ) : ℚ) := by push_cast; ring
  rw [h, rhe_intCast]
  push_cast
  rw [mul_div_assoc]
  norm_num

/-! Helper lemmas about lists. -/

lemma lastD_mem (l : List ℚ) (d : ℚ) (h : l ≠ []) : lastD l d ∈ l := by
  induction l with
  | nil => exact absurd rfl h
  | cons a tl ih =>
    cases tl with
    | nil => simp [lastD]
    | cons b tl2 =>
      have hmem := ih (by simp)
      show lastD (b :: tl2) d ∈ a :: b :: tl2
      exact List.mem_cons_of_mem a hmem

lemma mean_nonneg_of (l : List ℚ) (h : ∀ x ∈ l, 0 ≤ x) : 0 ≤ mean l := by
  unfold mean
  have hs : 0 ≤ l.sum := List.sum_nonneg h
  positivity

lemma mean_eq_zero_of (l : List ℚ) (h : ∀ x ∈ l, x = 0) : mean l = 0 := by
  unfold mean
  rw [List.sum_eq_zero h, zero_div]

lemma dailyReturns_const (c : ℚ) (hc : c ≠ 0) :
    ∀ l : List ℚ, (∀ x ∈ l, x = c) →
      dailyReturns l = List.replicate (l.length - 1) 0 := by
  intro l
  induction l with
  | nil => intro _; rfl
  | cons a tl ih =>
    intro hmem
    cases tl with
    | nil => rfl
    | cons b tl2 =>
      have ha : a = c := hmem a (by simp)
      have hb : b = c := hmem b (by simp)
      have hrec := ih (fun x hx => hmem x (List.mem_cons_of_mem a hx))
      show (b / a - 1) :: dailyReturns (b :: tl2)
          = List.replicate ((a :: b :: tl2).length - 1) 0
      rw [hrec, ha, hb, div_self hc]
      simp [List.replicate_succ]

lemma mean_replicate_zero (k : ℕ) : mean (List.replicate k (0:ℚ)) = 0 :=
  mean_eq_zero_of _ (fun x hx => List.eq_of_mem_replicate hx)

lemma sampleVar_replicate_zero (k : ℕ) : sampleVar (List.replicate k (0:ℚ)) = 0 := by
  unfold sampleVar
  rw [List.map_replicate, mean_replicate_zero]
  norm_num

lemma stdQ_replicate_zero (k : ℕ) : stdQ (List.replicate k (0:ℚ)) = 0 := by
  unfold stdQ
  rw [sampleVar_replicate_zero]
  decide

lemma cumprodAux_replicate_zero (k : ℕ) :
    ∀ acc : ℚ, cumprodAux acc (List.replicate k 0) = List.replicate k acc := by
  induction k with
  | zero => intro acc; rfl
  | succ n ih =>
    intro acc
    show (acc * (1 + 0)) :: cumprodAux (acc * (1 + 0)) (List.replicate n 0)
        = List.replicate (n + 1) acc
    have h1 : acc * (1 + 0) = acc := by ring
    rw [h1, ih acc, List.replicate_succ]

lemma cumprod_replicate_zero (k : ℕ) :
    cumprod (List.replicate k (0:ℚ)) = List.replicate k 1 :=
  cumprodAux_replicate_zero k 1

lemma runningMaxAux_replicate (k : ℕ) (x : ℚ) :
    runningMaxAux x (List.replicate k x) = List.replicate k x := by
  induction k with
  | zero => rfl
  | succ n ih =>
    show (max x x) :: runningMaxAux (max x x) (List.replicate n x)
        = List.replicate (n + 1) x
    rw [max_self, ih, List.replicate_succ]

lemma runningMax_replicate (k : ℕ) (x : ℚ) :
    runningMax (List.replicate k x) = List.replicate k x := by
  cases k with
  | zero => rfl
  | succ n =>
    show x :: runningMaxAux x (List.replicate n x) = List.replicate (n + 1) x
    rw [runningMaxAux_replicate, List.replicate_succ]

lemma zipWith_replicate_same (f : ℚ → ℚ → ℚ) (a b : ℚ) (k : ℕ) :
    List.zipWith f (List.replicate k a) (List.replicate k b)
      = List.replicate k (f a b) := by
  induction k with
  | zero => rfl
  | succ n ih =>
    simp only [List.replicate_succ, List.zipWith_cons_cons, ih]

lemma foldl_min_replicate (k : ℕ) (x : ℚ) :
    List.foldl min x (List.replicate k x) = x := by
  induction k with
  | zero => rfl
  | succ n ih =>
    show List.foldl min (min x x) (List.replicate n x) = x
    rw [min_self, ih]

lemma minList_replicate (k : ℕ) (x : ℚ) (hk : 1 ≤ k) :
    minList (List.replicate k x) = some x := by
  cases k with
  | zero => omega
  | succ n =>
    show minList (x :: List.replicate n x) = some x
    have h : minList (x :: List.replicate n x)
        = some (List.foldl min x (List.replicate n x)) := rfl
    rw [h, foldl_min_replicate]

lemma countP_pos_replicate_zero (k : ℕ) :
    (List.replicate k (0:ℚ)).countP (fun x => decide (0 < x)) = 0 := by
  induction k with
  | zero => rfl
  | succ n ih =>
    rw [List.replicate_succ, List.countP_cons]
    simp [ih]

lemma deltas_length : ∀ l : List ℚ, (deltas l).length = l.length - 1 := by
  intro l
  induction l with
  | nil => rfl
  | cons a tl ih =>
    cases tl with
    | nil => rfl
    | cons b tl2 =>
      show (deltas (b :: tl2)).length + 1 = (b :: tl2).length
      rw [ih]
      simp

lemma paddedDeltas_length (l : List ℚ) (h : 1 ≤ l.length) :
    (paddedDeltas l).length = l.length := by
  unfold paddedDeltas
  show (deltas l).length + 1 = l.length
  rw [deltas_length]
  omega

lemma lastN_length (n : ℕ) (l : List ℚ) (h : n ≤ l.length) :
    (lastN n l).length = n := by
  unfold lastN
  rw [List.length_drop]
  omega

lemma lastN_map (n : ℕ) (f : ℚ → ℚ) (l : List ℚ) :
    lastN n (l.map f) = (lastN n l).map f := by
  unfold lastN
  rw [List.length_map, List.map_drop]

lemma lastN_subset (n : ℕ) (l : List ℚ) : ∀ x ∈ lastN n l, x ∈ l := by
  intro x hx
  exact List.drop_subset _ l hx

/-! Helper lemmas about the scoring rubrics. -/

lemma maPoints_bounds (s : Option String) : 5 ≤ maPoints s ∧ maPoints s ≤ 15 := by
  unfold maPoints; split_ifs <;> omega

lemma rsiPoints_bounds (x : ℚ) : 4 ≤ rsiPoints x ∧ rsiPoints x ≤ 10 := by
  unfold rsiPoints; split_ifs <;> omega

lemma bbPoints_bounds (s : Option String) : 4 ≤ bbPoints s ∧ bbPoints s ≤ 10 := by
  unfold bbPoints; split_ifs <;> omega

lemma trendPoints_bounds (x : ℚ) : 0 ≤ trendPoints x ∧ trendPoints x ≤ 15 := by
  unfold trendPoints; split_ifs <;> omega

lemma valuationPoints_bounds (pe : Option ℚ) :
    0 ≤ valuationPoints pe ∧ valuationPoints pe ≤ 15 := by
  cases pe with
  | none => decide
  | some p =>
    unfold valuationPoints
    dsimp only
    split_ifs <;> omega

lemma profitPoints_bounds (pm : Option ℚ) :
    0 ≤ profitPoints pm ∧ profitPoints pm ≤ 10 := by
  unfold profitPoints; split_ifs <;> omega

lemma growthPoints_bounds (rg : Option ℚ) :
    0 ≤ growthPoints rg ∧ growthPoints rg ≤ 10 := by
  unfold growthPoints; split_ifs <;> omega

lemma healthPoints_bounds (de : Option ℚ) :
    0 ≤ healthPoints de ∧ healthPoints de ≤ 15 := by
  unfold healthPoints; split_ifs <;> omega

lemma volPenaltyOf_bounds (r : Option ReturnMetrics) :
    -25 ≤ volPenaltyOf r ∧ volPenaltyOf r ≤ 0 := by
  unfold volPenaltyOf; split_ifs <;> omega

lemma ddPenaltyOf_bounds (r : Option ReturnMetrics) :
    -25 ≤ ddPenaltyOf r ∧ ddPenaltyOf r ≤ 0 := by
  cases r with
  | none => decide
  | some m =>
    cases hm : m.max_drawdown_pct with
    | none => simp [ddPenaltyOf, hm]
    | some d =>
      simp only [ddPenaltyOf, hm]
      split_ifs <;> omega

lemma totalScoreOf_bounds (r : Option ReturnMetrics) (t : Option Technicals)
    (f : Fundamentals) : -50 ≤ totalScoreOf r t f ∧ totalScoreOf r t f ≤ 100 := by
  have h1 := maPoints_bounds (t.map Technicals.ma_signal)
  have h2 := rsiPoints_bounds (rsiInput t)
  have h3 := bbPoints_bounds (t.map Technicals.bb_position)
  have h4 := trendPoints_bounds (crInput r)
  have h5 := valuationPoints_bounds f.pe_ratio
  have h6 := profitPoints_bounds f.profit_margin
  have h7 := growthPoints_bounds f.revenue_growth
  have h8 := healthPoints_bounds f.debt_equity
  have h9 := volPenaltyOf_bounds r
  have h10 := ddPenaltyOf_bounds r
  unfold totalScoreOf technicalScoreOf fundamentalScoreOf riskScoreOf
  omega

lemma volOf_replicate_zero (k : ℕ) : volOf (List.replicate k (0:ℚ)) = 0 := by
  unfold volOf
  rw [List.length_replicate]
  split_ifs with h
  · rw [stdQ_replicate_zero]
    ring
  · rfl

lemma sharpeOf_replicate_zero (k : ℕ) : sharpeOf (List.replicate k (0:ℚ)) = 0 := by
  unfold sharpeOf stdNaN
  rw [List.length_replicate, stdQ_replicate_zero]
  split_ifs with h
  · norm_num
  · rfl

lemma maxDrawdownOf_replicate_zero (k : ℕ) (hk : 1 ≤ k) :
    maxDrawdownOf (List.replicate k (0:ℚ)) = some 0 := by
  unfold maxDrawdownOf drawdowns
  rw [cumprod_replicate_zero, runningMax_replicate, zipWith_replicate_same,
    minList_replicate _ _ hk]
  norm_num [pyRound_zero]

lemma avgDailyOf_replicate_zero (k : ℕ) (hk : 1 ≤ k) :
    avgDailyOf (List.replicate k (0:ℚ)) = some 0 := by
  obtain ⟨n, rfl⟩ : ∃ n, k = n + 1 := ⟨k - 1, by omega⟩
  unfold avgDailyOf
  rw [if_neg (by simp), mean_replicate_zero]
  norm_num [pyRound_zero]

lemma posDaysOf_replicate_zero (k : ℕ) (hk : 1 ≤ k) :
    posDaysOf (List.replicate k (0:ℚ)) = some 0 := by
  obtain ⟨n, rfl⟩ : ∃ n, k = n + 1 := ⟨k - 1, by omega⟩
  unfold posDaysOf
  rw [if_neg (by simp), countP_pos_replicate_zero]
  norm_num [pyRound_zero]

lemma deltas_const (c : ℚ) :
    ∀ l : List ℚ, (∀ x ∈ l, x = c) →
      deltas l = List.replicate (l.length - 1) 0 := by
  intro l
  induction l with
  | nil => intro _; rfl
  | cons a tl ih =>
    intro hmem
    cases tl with
    | nil => rfl
    | cons b tl2 =>
      have ha : a = c := hmem a (by simp)
      have hb : b = c := hmem b (by simp)
      have hrec := ih (fun x hx => hmem x (List.mem_cons_of_mem a hx))
      show (b - a) :: deltas (b :: tl2)
          = List.replicate ((a :: b :: tl2).length - 1) 0
      rw [hrec, ha, hb, sub_self]
      simp [List.replicate_succ]

lemma pyRound_hundred : pyRound 1 (100 : ℚ) = 100 := by
  simpa using pyRound_intCast 1 100

lemma avgGain_nonneg (closes : List ℚ) (g : ℚ) (h : avgGain closes = some g) :
    0 ≤ g := by
  unfold avgGain at h
  split_ifs at h with hn
  · have hg := Option.some.inj h
    subst hg
    apply mean_nonneg_of
    intro x hx
    have hx2 : x ∈ gains closes := lastN_subset _ _ _ hx
    unfold gains at hx2
    obtain ⟨d, hd, rfl⟩ := List.mem_map.1 hx2
    exact le_max_right d 0

lemma avgLoss_nonneg (closes : List ℚ) (l : ℚ) (h : avgLoss closes = some l) :
    0 ≤ l := by
  unfold avgLoss at h
  split_ifs at h with hn
  · have hl := Option.some.inj h
    subst hl
    apply mean_nonneg_of
    intro x hx
    have hx2 : x ∈ losses closes := lastN_subset _ _ _ hx
    unfold losses at hx2
    obtain ⟨d, hd, rfl⟩ := List.mem_map.1 hx2
    exact le_max_right (-d) 0

lemma avgLoss_of_nonneg (closes : List ℚ) (hn : 14 ≤ closes.length)
    (hpos : ∀ d ∈ lastN 14 (paddedDeltas closes), 0 ≤ d) :
    avgLoss closes = some 0 := by
  unfold avgLoss
  rw [if_pos hn]
  congr 1
  unfold losses
  rw [lastN_map]
  apply mean_eq_zero_of
  intro y hy
  obtain ⟨d, hd, rfl⟩ := List.mem_map.1 hy
  exact max_eq_right (neg_nonpos.mpr (hpos d hd))

lemma avgGain_of_nonneg (closes : List ℚ) (hn : 14 ≤ closes.length)
    (hpos : ∀ d ∈ lastN 14 (paddedDeltas closes), 0 ≤ d) :
    avgGain closes = some (mean (lastN 14 (paddedDeltas closes))) := by
  unfold avgGain
  rw [if_pos hn]
  congr 1
  unfold gains
  rw [lastN_map]
  congr 1
  have h : ∀ d ∈ lastN 14 (paddedDeltas closes), max d 0 = d :=
    fun d hd => max_eq_left (hpos d hd)
  calc (lastN 14 (paddedDeltas closes)).map (fun d => max d 0)
      = (lastN 14 (paddedDeltas closes)).map id := List.map_congr_left h
    _ = lastN 14 (paddedDeltas closes) := List.map_id _

lemma window_length (closes : List ℚ) (hn : 14 ≤ closes.length) :
    (lastN 14 (paddedDeltas closes)).length = 14 := by
  apply lastN_length
  rw [paddedDeltas_length _ (by omega)]
  exact hn

lemma mean_pos_of_window (l : List ℚ) (hlen : l.length = 14)
    (hnn : ∀ x ∈ l, 0 ≤ x) (hex : ∃ x ∈ l, 0 < x) : 0 < mean l := by
  obtain ⟨x, hx, hxpos⟩ := hex
  have hsum : x ≤ l.sum := List.single_le_sum hnn x hx
  unfold mean
  rw [hlen]
  have h14 : (0:ℚ) < ((14:ℕ):ℚ) := by norm_num
  exact div_pos (lt_of_lt_of_le hxpos hsum) h14

lemma reportedRsi_bounds (closes : List ℚ) :
    0 ≤ reportedRsi closes ∧ reportedRsi closes ≤ 100 := by
  unfold reportedRsi
  cases hcr : currentRsi closes with
  | none => norm_num
  | some r =>
    show 0 ≤ pyRound 1 r ∧ pyRound 1 r ≤ 100
    unfold currentRsi at hcr
    cases hg : avgGain closes with
    | none => simp [hg] at hcr
    | some g =>
      cases hl : avgLoss closes with
      | none => simp [hg, hl] at hcr
      | some l =>
        rw [hg, hl] at hcr
        have hcr2 : rsiFromAvgs g l = some r := hcr
        have hg0 := avgGain_nonneg closes g hg
        have hl0 := avgLoss_nonneg closes l hl
        unfold rsiFromAvgs at hcr2
        split_ifs at hcr2 with h1 h2
        · have hr := Option.some.inj hcr2
          rw [← hr]
          constructor
          · simpa using le_pyRound 1 0 100 (by norm_num)
          · simpa using pyRound_le 1 100 100 (by norm_num)
        · have hlpos : 0 < l := lt_of_le_of_ne hl0 (Ne.symm h1)
          have hrs0 : 0 ≤ g / l := div_nonneg hg0 hl0
          have ht : (0:ℚ) < 1 + g / l := by linarith
          have hfrac_pos : 0 < 100 / (1 + g / l) := by positivity
          have hfrac_le : 100 / (1 + g / l) ≤ 100 := by
            rw [div_le_iff ht]
            nlinarith
          have hr := Option.some.inj hcr2
          rw [← hr]
          constructor
          · simpa using le_pyRound 1 0 _ (by linarith)
          · simpa using pyRound_le 1 100 _ (by linarith)

lemma reportedRsi_saturation (closes : List ℚ) (hn : 14 ≤ closes.length)
    (hpos : ∀ d ∈ lastN 14 (paddedDeltas closes), 0 ≤ d) :
    ((∃ d ∈ lastN 14 (paddedDeltas closes), 0 < d) → reportedRsi closes = 100) ∧
    ((∀ d ∈ lastN 14 (paddedDeltas closes), d = 0) → reportedRsi closes = 50) := by
  have hl := avgLoss_of_nonneg closes hn hpos
  have hg := avgGain_of_nonneg closes hn hpos
  constructor
  · intro hex
    have hmean : 0 < mean (lastN 14 (paddedDeltas closes)) :=
      mean_pos_of_window _ (window_length closes hn) hpos hex
    have hcur : currentRsi closes = some 100 := by
      unfold currentRsi
      rw [hg, hl]
      show rsiFromAvgs (mean (lastN 14 (paddedDeltas closes))) 0 = some 100
      unfold rsiFromAvgs
      rw [if_pos rfl, if_neg hmean.ne']
    unfold reportedRsi
    rw [hcur]
    exact pyRound_hundred
  · intro hall
    have hmean : mean (lastN 14 (paddedDeltas closes)) = 0 := mean_eq_zero_of _ hall
    have hcur : currentRsi closes = none := by
      unfold currentRsi
      rw [hg, hl]
      show rsiFromAvgs (mean (lastN 14 (paddedDeltas closes))) 0 = none
      unfold rsiFromAvgs
      rw [if_pos rfl, if_pos hmean]
    unfold reportedRsi
    rw [hcur]

lemma fundamentalScoreOf_empty : fundamentalScoreOf emptyFundamentals = 12 := by
  unfold fundamentalScoreOf emptyFundamentals valuationPoints profitPoints
    growthPoints healthPoints
  norm_num

lemma maSignal_eq_or (closes : List ℚ) :
    maSignal closes = "Bullish" ∨ maSignal closes = "Bearish" := by
  unfold maSignal
  split
  · exact Or.inl rfl
  · exact Or.inr rfl

/-! The claims. -/

/-- C1: the recommendation action and conviction are a pure step function
of total_score, evaluated top-down with first match: total_score at least
70 gives BUY/STRONG, at least 50 gives BUY/MODERATE, at least 30 gives
HOLD/NEUTRAL, at least 10 gives HOLD/CAUTIOUS, and anything lower gives
SELL/MODERATE; generate_recommendation takes its action and conviction
from this step function applied to its total score. -/
theorem claim_c1 (s : ℤ) (closes : List ℚ) (f : Fundamentals) :
    (70 ≤ s → recAction s = ("BUY", "STRONG")) ∧
    (50 ≤ s → s < 70 → recAction s = ("BUY", "MODERATE")) ∧
    (30 ≤ s → s < 50 → recAction s = ("HOLD", "NEUTRAL")) ∧
    (10 ≤ s → s < 30 → recAction s = ("HOLD", "CAUTIOUS")) ∧
    (s < 10 → recAction s = ("SELL", "MODERATE")) ∧
    (generateRecommendation closes f).recommendation
      = (recAction (generateRecommendation closes f).total_score).1 ∧
    (generateRecommendation closes f).conviction
      = (recAction (generateRecommendation closes f).total_score).2 := by
  refine ⟨?_, ?_, ?_, ?_, ?_, rfl, rfl⟩ <;>
    · intros
      unfold recAction
      split_ifs <;> first | rfl | (exfalso; omega)

/-- C1 witness: the five concrete scores of the claim hit the bands the
claim names. -/
theorem claim_c1_witness :
    recAction 75 = ("BUY", "STRONG") ∧ recAction 55 = ("BUY", "MODERATE") ∧
    recAction 35 = ("HOLD", "NEUTRAL") ∧ recAction 15 = ("HOLD", "CAUTIOUS") ∧
    recAction 5 = ("SELL", "MODERATE") :=
  ⟨(claim_c1 75 [] emptyFundamentals).1 (by decide),
   (claim_c1 55 [] emptyFundamentals).2.1 (by decide) (by decide),
   (claim_c1 35 [] emptyFundamentals).2.2.1 (by decide) (by decide),
   (claim_c1 15 [] emptyFundamentals).2.2.2.1 (by decide) (by decide),
   (claim_c1 5 [] emptyFundamentals).2.2.2.2.1 (by decide)⟩

/-- C2: for every close-price series and every fundamentals mapping, the
total score of generate_recommendation lies in the closed range
[-50, 100]. -/
theorem claim_c2 (closes : List ℚ) (f : Fundamentals) :
    -50 ≤ (generateRecommendation closes f).total_score ∧
    (generateRecommendation closes f).total_score ≤ 100 := by
  have h : (generateRecommendation closes f).total_score
      = totalScoreOf (calculateReturns closes) (calculateTechnicals closes) f := rfl
  rw [h]
  exact totalScoreOf_bounds _ _ _

/-- C3 counterexample: on an empty fundamentals snapshot the fundamental
score of generate_recommendation is 12, not the 17 the claim states,
because the debt_equity default of 1 falls in the under-2 band worth 5,
not 10. -/
theorem claim_c3_counterexample :
    (generateRecommendation [] emptyFundamentals).fundamental_score = 12 ∧
    (generateRecommendation [] emptyFundamentals).fundamental_score ≠ 17 ∧
    healthPoints (some 1) = 5 := by
  have h : (generateRecommendation [] emptyFundamentals).fundamental_score
      = fundamentalScoreOf emptyFundamentals := rfl
  rw [h, fundamentalScoreOf_empty]
  refine ⟨rfl, by decide, ?_⟩
  unfold healthPoints
  norm_num

/-- C3 amended: for an empty fundamentals snapshot generate_recommendation
is total (never raises) and its fundamental score equals 12, decomposed as
7 for valuation (missing P/E), 0 for profitability, 0 for growth, and 5
for financial health from the debt_equity = 1 default. -/
theorem claim_c3 (closes : List ℚ) :
    (generateRecommendation closes emptyFundamentals).fundamental_score = 12 ∧
    valuationPoints emptyFundamentals.pe_ratio = 7 ∧
    profitPoints emptyFundamentals.profit_margin = 0 ∧
    growthPoints emptyFundamentals.revenue_growth = 0 ∧
    healthPoints emptyFundamentals.debt_equity = 5 := by
  have h : (generateRecommendation closes emptyFundamentals).fundamental_score
      = fundamentalScoreOf emptyFundamentals := rfl
  rw [h, fundamentalScoreOf_empty]
  refine ⟨rfl, by decide, ?_, ?_, ?_⟩
  · unfold emptyFundamentals profitPoints
    norm_num
  · unfold emptyFundamentals growthPoints
    norm_num
  · unfold emptyFundamentals healthPoints
    norm_num

/-- C6: when the price series is empty the analysis still goes through:
the returns and technicals mappings are both empty, and the produced
recommendation has price_target 0 and stop_loss 0, its total score being
the best-effort 29 technical-default points plus whatever the
fundamentals alone contribute. -/
theorem claim_c6 (f : Fundamentals) :
    calculateReturns ([] : List ℚ) = none ∧
    calculateTechnicals ([] : List ℚ) = none ∧
    (generateRecommendation [] f).price_target = 0 ∧
    (generateRecommendation [] f).stop_loss = 0 ∧
    (generateRecommendation [] f).total_score = 29 + fundamentalScoreOf f := by
  refine ⟨rfl, rfl, rfl, rfl, ?_⟩
  have h : (generateRecommendation [] f).total_score
      = technicalScoreOf none none + fundamentalScoreOf f + riskScoreOf none := rfl
  have h1 : technicalScoreOf none none = 29 := by decide
  have h2 : riskScoreOf none = 0 := by decide
  omega

/-- C9: a pe_ratio present with value exactly 0 scores like a missing
pe_ratio (7 valuation points, not the 15 of the under-15 band), because
the source tests presence by Python truthiness; the fundamental score
cannot distinguish the two. -/
theorem claim_c9 (pm rg de : Option ℚ) :
    fundamentalScoreOf ⟨some 0, pm, rg, de⟩ = fundamentalScoreOf ⟨none, pm, rg, de⟩ ∧
    valuationPoints (some 0) = 7 ∧
    valuationPoints (some 0) ≠ 15 := by
  refine ⟨?_, by decide, by decide⟩
  unfold fundamentalScoreOf
  have h : valuationPoints (some 0) = valuationPoints none := by decide
  simpa using congrArg (fun z => z + profitPoints pm + growthPoints rg + healthPoints de) h

/-- C7 counterexample: for the empty price series (a legitimate analysis
input, produced whenever the fetch fails) the ma_signal consumed by the
scorer is missing, neither Bullish nor Bearish, and the else branch of
the MA rubric awards its 10 points. -/
theorem claim_c7_counterexample :
    (calculateTechnicals ([] : List ℚ)).map Technicals.ma_signal ≠ some "Bullish" ∧
    (calculateTechnicals ([] : List ℚ)).map Technicals.ma_signal ≠ some "Bearish" ∧
    maPoints ((calculateTechnicals ([] : List ℚ)).map Technicals.ma_signal) = 10 := by
  refine ⟨by decide, by decide, rfl⟩

/-- C7 amended: for every nonempty price series the ma_signal consumed by
the scorer is strictly Bullish or Bearish, so the else branch of the MA
rubric (worth 10 points) is not taken there; that branch is reachable
only through the empty-series path where the technicals mapping is
missing entirely. -/
theorem claim_c7 (closes : List ℚ) (h : closes ≠ []) :
    ((calculateTechnicals closes).map Technicals.ma_signal = some "Bullish" ∨
     (calculateTechnicals closes).map Technicals.ma_signal = some "Bearish") ∧
    (maPoints ((calculateTechnicals closes).map Technicals.ma_signal) = 15 ∨
     maPoints ((calculateTechnicals closes).map Technicals.ma_signal) = 5) := by
  obtain ⟨c0, rest, rfl⟩ : ∃ c0 rest, closes = c0 :: rest := by
    cases closes with
    | nil => exact absurd rfl h
    | cons a l => exact ⟨a, l, rfl⟩
  have hmap : (calculateTechnicals (c0 :: rest)).map Technicals.ma_signal
      = some (maSignal (c0 :: rest)) := rfl
  rcases maSignal_eq_or (c0 :: rest) with hs | hs <;> rw [hmap, hs]
  · exact ⟨Or.inl rfl, Or.inl (by decide)⟩
  · exact ⟨Or.inr rfl, Or.inr (by decide)⟩

/-- C7 witness: the single-bar series is nonempty and its consumed
ma_signal is Bullish or Bearish, scoring 15 or 5. -/
theorem claim_c7_witness :
    ([(1:ℚ)] ≠ ([] : List ℚ)) ∧
    (((calculateTechnicals [(1:ℚ)]).map Technicals.ma_signal = some "Bullish" ∨
      (calculateTechnicals [(1:ℚ)]).map Technicals.ma_signal = some "Bearish") ∧
     (maPoints ((calculateTechnicals [(1:ℚ)]).map Technicals.ma_signal) = 15 ∨
      maPoints ((calculateTechnicals [(1:ℚ)]).map Technicals.ma_signal) = 5)) :=
  ⟨by decide, claim_c7 [(1:ℚ)] (by decide)⟩

/-- C10: every nonempty price series with fewer than 200 bars has
ma_signal Bearish, whatever the price trend: the 200-bar moving average
is NaN at the latest bar, the strict comparison chain fails, and Bullish
is unreachable for such series. -/
theorem claim_c10 (closes : List ℚ) (h0 : closes ≠ []) (h200 : closes.length < 200) :
    (calculateTechnicals closes).map Technicals.ma_signal = some "Bearish" ∧
    maSignal closes ≠ "Bullish" := by
  have hsma : lastSMA 200 closes = none := by
    unfold lastSMA
    rw [if_neg (by omega)]
  have hgt : gtO (lastSMA 50 closes) (lastSMA 200 closes) = false := by
    rw [hsma]
    cases lastSMA 50 closes <;> rfl
  have hsig : maSignal closes = "Bearish" := by
    unfold maSignal
    rw [hgt, Bool.and_false]
    rfl
  constructor
  · obtain ⟨c0, rest, rfl⟩ : ∃ c0 rest, closes = c0 :: rest := by
      cases closes with
      | nil => exact absurd rfl h0
      | cons a l => exact ⟨a, l, rfl⟩
    have hmap : (calculateTechnicals (c0 :: rest)).map Technicals.ma_signal
        = some (maSignal (c0 :: rest)) := rfl
    rw [hmap, hsig]
  · rw [hsig]
    decide

/-- C10 witness: a single-bar series is nonempty, shorter than 200 bars,
and reports a Bearish ma_signal. -/
theorem claim_c10_witness :
    ([(1:ℚ)] ≠ ([] : List ℚ)) ∧ ([(1:ℚ)].length < 200) ∧
    ((calculateTechnicals [(1:ℚ)]).map Technicals.ma_signal = some "Bearish" ∧
     maSignal [(1:ℚ)] ≠ "Bullish") :=
  ⟨by decide, by decide, claim_c10 [(1:ℚ)] (by decide) (by decide)⟩

/-- C4: a price series with fewer than 2 bars is a defined edge case of
calculate_returns, not a failure: the result is the empty mapping (no
bars) or a mapping whose every field is the 0 sentinel or the NaN
unavailable marker (one bar); nothing is raised, the function is total. -/
theorem claim_c4 (closes : List ℚ) (hlen : closes.length < 2)
    (hpos : ∀ c ∈ closes, 0 < c) :
    calculateReturns closes = none ∨
    calculateReturns closes
      = some { cumulative_return_pct := 0, annual_volatility_pct := 0,
               sharpe_ratio := 0, max_drawdown_pct := none,
               avg_daily_return_pct := none, positive_days_pct := none } := by
  cases closes with
  | nil => exact Or.inl rfl
  | cons c tl =>
    cases tl with
    | cons b tl2 => simp only [List.length_cons] at hlen; omega
    | nil =>
      right
      have hc : c ≠ 0 := ne_of_gt (hpos c (by simp))
      have hval : calculateReturns [c]
          = some { cumulative_return_pct := pyRound 2 ((c / c - 1) * 100),
                   annual_volatility_pct := pyRound 2 (volOf []),
                   sharpe_ratio := pyRound 2 (sharpeOf []),
                   max_drawdown_pct := none,
                   avg_daily_return_pct := none,
                   positive_days_pct := none } := rfl
      rw [hval, div_self hc]
      norm_num [pyRound_zero, volOf, sharpeOf, stdNaN]

/-- C4 witness: the one-bar series [7] is under-length, positive, and
produces the defined edge-case result. -/
theorem claim_c4_witness :
    (([(7:ℚ)] : List ℚ).length < 2) ∧ (∀ c ∈ [(7:ℚ)], 0 < c) ∧
    (calculateReturns [(7:ℚ)] = none ∨
     calculateReturns [(7:ℚ)]
       = some { cumulative_return_pct := 0, annual_volatility_pct := 0,
                sharpe_ratio := 0, max_drawdown_pct := none,
                avg_daily_return_pct := none, positive_days_pct := none }) :=
  ⟨by decide, by norm_num, claim_c4 [(7:ℚ)] (by decide) (by norm_num)⟩

/-- C8: on any series of at least 2 bars with constant positive close,
calculate_returns reports annual_volatility_pct = 0, sharpe_ratio = 0
(the zero-stdev branch yields the value 0, no division is attempted),
max_drawdown_pct = 0 and cumulative_return_pct = 0. -/
theorem claim_c8 (closes : List ℚ) (c : ℚ) (hc : 0 < c)
    (hlen : 2 ≤ closes.length) (hconst : ∀ x ∈ closes, x = c) :
    calculateReturns closes
      = some { cumulative_return_pct := 0, annual_volatility_pct := 0,
               sharpe_ratio := 0, max_drawdown_pct := some 0,
               avg_daily_return_pct := some 0, positive_days_pct := some 0 } := by
  obtain ⟨c0, rest, rfl⟩ : ∃ c0 rest, closes = c0 :: rest := by
    cases closes with
    | nil => simp at hlen
    | cons a l => exact ⟨a, l, rfl⟩
  have hne : c ≠ 0 := ne_of_gt hc
  have hdr : dailyReturns (c0 :: rest) = List.replicate rest.length 0 := by
    have h := dailyReturns_const c hne (c0 :: rest) hconst
    simpa using h
  have hk1 : 1 ≤ rest.length := by
    simp only [List.length_cons] at hlen
    omega
  have hlast : lastD (c0 :: rest) 0 = c := hconst _ (lastD_mem _ 0 (by simp))
  have hc0 : c0 = c := hconst c0 (by simp)
  simp only [calculateReturns]
  rw [hdr, hlast, hc0, div_self hne,
    volOf_replicate_zero, sharpeOf_replicate_zero,
    maxDrawdownOf_replicate_zero _ hk1, avgDailyOf_replicate_zero _ hk1,
    posDaysOf_replicate_zero _ hk1]
  norm_num [pyRound_zero]

/-- C8 witness: the constant positive series [5, 5, 5] realizes the
all-zero return metrics. -/
theorem claim_c8_witness :
    ((0:ℚ) < 5) ∧ (2 ≤ ([(5:ℚ), 5, 5] : List ℚ).length) ∧
    (∀ x ∈ [(5:ℚ), 5, 5], x = 5) ∧
    calculateReturns [(5:ℚ), 5, 5]
      = some { cumulative_return_pct := 0, annual_volatility_pct := 0,
               sharpe_ratio := 0, max_drawdown_pct := some 0,
               avg_daily_return_pct := some 0, positive_days_pct := some 0 } :=
  ⟨by norm_num, by decide, by norm_num,
   claim_c8 [(5:ℚ), 5, 5] 5 (by norm_num) (by decide) (by norm_num)⟩

/-- C5 counterexample: a constant 14-bar series has every delta of the
trailing 14-slot window nonnegative (all zero), yet the reported RSI is
the NaN-default 50, not 100: with avg_gain = avg_loss = 0 the quotient
rs is 0/0 = NaN, so the claimed saturation at 100 fails. -/
theorem claim_c5_counterexample :
    (14 ≤ (List.replicate 14 (10:ℚ)).length) ∧
    (∀ d ∈ lastN 14 (paddedDeltas (List.replicate 14 (10:ℚ))), 0 ≤ d) ∧
    reportedRsi (List.replicate 14 (10:ℚ)) = 50 ∧
    reportedRsi (List.replicate 14 (10:ℚ)) ≠ 100 := by
  have hp : paddedDeltas (List.replicate 14 (10:ℚ)) = List.replicate 14 0 := by
    unfold paddedDeltas
    rw [deltas_const 10 _ (fun x hx => List.eq_of_mem_replicate hx),
      List.length_replicate]
    rfl
  have hwin : lastN 14 (paddedDeltas (List.replicate 14 (10:ℚ)))
      = List.replicate 14 (0:ℚ) := by
    rw [hp]
    unfold lastN
    rw [List.length_replicate]
    norm_num
  have hlen14 : 14 ≤ (List.replicate 14 (10:ℚ)).length := by
    rw [List.length_replicate]
  have hnn : ∀ d ∈ lastN 14 (paddedDeltas (List.replicate 14 (10:ℚ))), 0 ≤ d := by
    rw [hwin]
    intro d hd
    rw [List.eq_of_mem_replicate hd]
  have hz : ∀ d ∈ lastN 14 (paddedDeltas (List.replicate 14 (10:ℚ))), d = 0 := by
    rw [hwin]
    intro d hd
    exact List.eq_of_mem_replicate hd
  have h50 := (reportedRsi_saturation _ hlen14 hnn).2 hz
  exact ⟨hlen14, hnn, h50, by rw [h50]; norm_num⟩

/-- C5 amended: for every price series the reported RSI lies in [0, 100];
whenever the series has at least 14 bars and every delta of the trailing
14-slot window is nonnegative, the RSI is exactly 100 when at least one
such delta is positive (rs = avg_gain/0 is +inf, no error is raised),
and it is the NaN-default 50 when all of them are zero (rs = 0/0 = NaN). -/
theorem claim_c5 (closes : List ℚ) :
    (0 ≤ reportedRsi closes ∧ reportedRsi closes ≤ 100) ∧
    (14 ≤ closes.length →
      (∀ d ∈ lastN 14 (paddedDeltas closes), 0 ≤ d) →
      ((∃ d ∈ lastN 14 (paddedDeltas closes), 0 < d) → reportedRsi closes = 100) ∧
      ((∀ d ∈ lastN 14 (paddedDeltas closes), d = 0) → reportedRsi closes = 50)) :=
  ⟨reportedRsi_bounds closes, fun hn hpos => reportedRsi_saturation closes hn hpos⟩

/-- C5 witness: a 14-bar series flat at 1 and closing at 2 has a
nonnegative trailing window with one positive delta, and its reported
RSI is exactly 100. -/
theorem claim_c5_witness :
    (14 ≤ ([(1:ℚ), 1, 1, 1, 1, 1, 1, 1, 1, 1, 1, 1, 1, 2] : List ℚ).length) ∧
    (∀ d ∈ lastN 14 (paddedDeltas [(1:ℚ), 1, 1, 1, 1, 1, 1, 1, 1, 1, 1, 1, 1, 2]),
      0 ≤ d) ∧
    (∃ d ∈ lastN 14 (paddedDeltas [(1:ℚ), 1, 1, 1, 1, 1, 1, 1, 1, 1, 1, 1, 1, 2]),
      0 < d) ∧
    reportedRsi [(1:ℚ), 1, 1, 1, 1, 1, 1, 1, 1, 1, 1, 1, 1, 2] = 100 := by
  have hwin : lastN 14 (paddedDeltas [(1:ℚ), 1, 1, 1, 1, 1, 1, 1, 1, 1, 1, 1, 1, 2])
      = [0, 0, 0, 0, 0, 0, 0, 0, 0, 0, 0, 0, 0, 1] := by
    norm_num [paddedDeltas, deltas, lastN]
  have hlen : 14 ≤ ([(1:ℚ), 1, 1, 1, 1, 1, 1, 1, 1, 1, 1, 1, 1, 2] : List ℚ).length := by
    norm_num
  have hnn : ∀ d ∈ lastN 14 (paddedDeltas [(1:ℚ), 1, 1, 1, 1, 1, 1, 1, 1, 1, 1, 1, 1, 2]),
      0 ≤ d := by
    rw [hwin]
    intro d hd
    fin_cases hd <;> norm_num
  have hex : ∃ d ∈ lastN 14 (paddedDeltas [(1:ℚ), 1, 1, 1, 1, 1, 1, 1, 1, 1, 1, 1, 1, 2]),
      0 < d := by
    refine ⟨1, ?_, by norm_num⟩
    rw [hwin]
    simp
  exact ⟨hlen, hnn, hex,
    ((claim_c5 [(1:ℚ), 1, 1, 1, 1, 1, 1, 1, 1, 1, 1, 1, 1, 2]).2 hlen hnn).1 hex⟩

end StockResearch
